import Mathlib

/-!
Shallow embedding of `src/lib/autokey/qtui/configwindow.py` (class `ConfigWindow`).

The embedding covers the logic of the file that has observable behaviour:
* `ConfigWindow.update_actions` (lines 195-219): recomputing action enablement
  from the current selection;
* `ConfigWindow.cancel_record` (lines 232-235): stopping an in-progress recording;
* `ConfigWindow.queryClose` (lines 239-251): persisting the two layout
  preferences and deciding whether the window closes;
* `ConfigWindow._run_script` (lines 288-291) together with `on_run_script`
  (lines 284-286): the background worker thread that reads the selected item,
  sleeps two seconds and executes the script, modelled as a small-step
  transition system interleaved with selection changes from the event thread.
-/

/-- The three item variants of the `autokey.model` tree:
`model.Folder`, `model.Phrase`, `model.Script`.  `isinstance` tests in the
source become equality tests on this tag. -/
inductive Variant where
  | folder
  | phrase
  | script
deriving DecidableEq

/-- A tree item as seen by `update_actions`: its variant plus an identity
(`id`) so that two distinct scripts can be told apart. -/
structure Item where
  variant : Variant
  id : Nat
deriving DecidableEq

/-- Enabled/disabled state of every action that `ConfigWindow.update_actions`,
`save_completed`, `set_undo_available` or `set_redo_available` touches.
Each field is the argument last passed to the corresponding
`QAction.setEnabled`. -/
structure ActionStates where
  new_top_folder : Bool
  new_sub_folder : Bool
  new_phrase : Bool
  new_script : Bool
  copy_item : Bool
  clone_item : Bool
  paste_item : Bool
  record_script : Bool
  run_script : Bool
  save : Bool
  undo : Bool
  redo : Bool
deriving DecidableEq

/-- The window state the embedded methods read or write:

* `actions` — the enablement of all actions (see `ActionStates`);
* `record_script_checked` — `self.action_record_script.isChecked()`, the
  checked state of the record toggle; a recording is in progress exactly while
  it is checked (`on_record` starts the recorder when checked and stops it
  when unchecked, `cancel_record` tests it);
* `recorder_stop_calls` — how many times `self.central_widget.recorder.stop()`
  has been invoked (an event counter for the external recorder collaborator);
* `script_running` — whether a `_run_script` worker thread is currently alive;
  no code in `configwindow.py` ever reads or writes a flag for this, so the
  field is never touched by the embedded methods;
* `cut_copied_count` — `len(self.central_widget.cutCopiedItems)`, the number
  of items on the internal clipboard. -/
structure ConfigWindow where
  actions : ActionStates
  record_script_checked : Bool
  recorder_stop_calls : Nat
  script_running : Bool
  cut_copied_count : Nat
deriving DecidableEq

/-- Local `can_create` of `update_actions` (line 197):
`isinstance(items[0], model.Folder) and len(items) == 1`.
The source evaluates it only under the `len(items) > 0` guard; the `[]`
branch is the value forced by the `len(items) == 1` conjunct. -/
def can_create (items : List Item) : Bool :=
  match items with
  | [] => false
  | first :: _ => decide (first.variant = Variant.folder) && decide (items.length = 1)

/-- Local `can_copy` of `update_actions` (lines 198-202): the
`for item in items` loop that sets `can_copy = False` and breaks as soon as a
`model.Folder` is found. -/
def can_copy (items : List Item) : Bool :=
  match items with
  | [] => true
  | it :: rest => if it.variant = Variant.folder then false else can_copy rest

/-- `ConfigWindow.update_actions(self, items, changed)` (lines 195-219).
When `items` is empty the entire body is skipped (`if len(items) > 0:` guards
everything) and no action state changes.  Otherwise the enablement of the
creation, copy/clone, paste, record and run actions is recomputed, and when
`changed` is true the save, undo and redo actions are additionally disabled. -/
def ConfigWindow.update_actions (w : ConfigWindow) (items : List Item) (changed : Bool) :
    ConfigWindow :=
  match items with
  | [] => w
  | first :: _ =>
    let cc := can_create items
    let cp := can_copy items
    let single_script := decide (first.variant = Variant.script) && decide (items.length = 1)
    let a := { w.actions with
      new_top_folder := true,
      new_sub_folder := cc,
      new_phrase := cc,
      new_script := cc,
      copy_item := cp,
      clone_item := cp,
      paste_item := cc && decide (0 < w.cut_copied_count),
      record_script := single_script,
      run_script := single_script }
    let a := if changed then { a with save := false, undo := false, redo := false } else a
    { w with actions := a }

/-- `ConfigWindow.cancel_record(self)` (lines 232-235): when the record toggle
is checked, uncheck it and call `recorder.stop()`; otherwise do nothing. -/
def ConfigWindow.cancel_record (w : ConfigWindow) : ConfigWindow :=
  if w.record_script_checked then
    { w with
      record_script_checked := false,
      recorder_stop_calls := w.recorder_stop_calls + 1 }
  else w

/-- The two keys of `cm.ConfigManager.SETTINGS` written by `queryClose`:
`cm.HPANE_POSITION` and `cm.COLUMN_WIDTHS`. -/
inductive SettingKey where
  | hpane_position
  | column_widths
deriving DecidableEq

/-- A value stored into `cm.ConfigManager.SETTINGS`: a single integer
(splitter position) or a list of integers (column widths). -/
inductive SettingValue where
  | num (n : Int)
  | nums (l : List Int)
deriving DecidableEq

/-- Result of `queryClose`: the ordered log of `SETTINGS[...] = ...`
assignments it performed, whether `self.hide()` ran, and the returned
boolean (`True` = window closed/hidden). -/
structure CloseResult where
  writes : List (SettingKey × SettingValue)
  hidden : Bool
  closed : Bool
deriving DecidableEq

/-- `ConfigWindow.queryClose(self)` (lines 239-251).

Inputs stand for the collaborator state the method reads:
`dirty` is `self.is_dirty()` (i.e. `central_widget.dirty`), `prompt_to_save`
the value `central_widget.promptToSave()` would return when called,
`splitter_first_size` is `central_widget.splitter.sizes()[0]`, and
`column_width i` is `central_widget.treeWidget.columnWidth(i)`.

The method first assigns the two layout settings, then, if dirty and the
prompt returns true, returns `False` without hiding; otherwise it hides the
window and returns `True`. -/
def queryClose (dirty prompt_to_save : Bool) (splitter_first_size : Int)
    (column_width : Nat → Int) : CloseResult :=
  let writes : List (SettingKey × SettingValue) :=
    [(SettingKey.hpane_position, SettingValue.num (splitter_first_size + 4)),
     (SettingKey.column_widths, SettingValue.nums ((List.range 3).map column_width))]
  if dirty && prompt_to_save then
    { writes := writes, hidden := false, closed := false }
  else
    { writes := writes, hidden := true, closed := true }

/-- Program counter of the worker thread spawned by `on_run_script`
(lines 284-291).  `started` is the thread before its first statement,
`read_done` is after `script = self.central_widget.get_selected_item()[0]`
has run (the thread is inside `time.sleep(2)`), `finished` is after
`self.app.service.scriptRunner.execute(script)` has been invoked. -/
inductive WorkerPC where
  | started
  | read_done
  | finished
deriving DecidableEq

/-- Joint state of the event thread and the `_run_script` worker thread:

* `selected` — the item `central_widget.get_selected_item()[0]` currently
  returns (the event thread may change it at any time);
* `pc` — where the worker thread is (see `WorkerPC`);
* `captured` — the worker's local variable `script` once assigned;
* `executed` — the argument handed to `scriptRunner.execute`, once called. -/
structure RunState where
  selected : Item
  pc : WorkerPC
  captured : Option Item
  executed : Option Item
deriving DecidableEq

/-- Interleaved small-step semantics of `_run_script` against the event
thread.  `select_change` is the event thread changing the tree selection; it
can happen at any time.  `read_selected` is the worker's first statement
`script = self.central_widget.get_selected_item()[0]`; `sleep_then_execute`
is `time.sleep(2)` followed by `scriptRunner.execute(script)` — any
`select_change` ordered between `read_selected` and `sleep_then_execute`
happens while the worker sits in the two-second settling delay. -/
inductive RunStep : RunState → RunState → Prop where
  | select_change (s : RunState) (new_item : Item) :
      RunStep s { s with selected := new_item }
  | read_selected (s : RunState) (h : s.pc = WorkerPC.started) :
      RunStep s { s with pc := WorkerPC.read_done, captured := some s.selected }
  | sleep_then_execute (s : RunState) (x : Item) (h : s.pc = WorkerPC.read_done)
      (hc : s.captured = some x) :
      RunStep s { s with pc := WorkerPC.finished, executed := some x }

/-- State at the moment `on_run_script` starts the worker thread, with item
`sel` selected: the thread has run nothing yet. -/
def initial_run (sel : Item) : RunState :=
  { selected := sel, pc := WorkerPC.started, captured := none, executed := none }

/-- State of a run scheduled with `sel` selected right after the worker has
executed its first statement, with no selection change before it: the worker
is inside `time.sleep(2)` holding `script = sel`. -/
def after_read (sel : Item) : RunState :=
  { selected := sel, pc := WorkerPC.read_done, captured := some sel, executed := none }

/-- A concrete script item used as the scheduled script in run scenarios. -/
def scriptS : Item := { variant := Variant.script, id := 0 }

/-- A second, distinct script item the user selects afterwards. -/
def scriptT : Item := { variant := Variant.script, id := 1 }

/-- A window whose actions are all enabled, with the record toggle checked,
a worker thread alive and one item on the clipboard: a concrete prior state
for counterexamples. -/
def allEnabledWindow : ConfigWindow :=
  { actions :=
      { new_top_folder := true, new_sub_folder := true, new_phrase := true,
        new_script := true, copy_item := true, clone_item := true,
        paste_item := true, record_script := true, run_script := true,
        save := true, undo := true, redo := true },
    record_script_checked := true,
    recorder_stop_calls := 0,
    script_running := true,
    cut_copied_count := 1 }

/-- A window whose actions are all disabled, with nothing in progress. -/
def allDisabledWindow : ConfigWindow :=
  { actions :=
      { new_top_folder := false, new_sub_folder := false, new_phrase := false,
        new_script := false, copy_item := false, clone_item := false,
        paste_item := false, record_script := false, run_script := false,
        save := false, undo := false, redo := false },
    record_script_checked := false,
    recorder_stop_calls := 0,
    script_running := false,
    cut_copied_count := 0 }

/-- Once the worker thread has passed its read (`pc ≠ started`) holding
`captured = some x`, every later state still holds `captured = some x` and
can only ever execute `x`: selection changes no longer influence the run. -/
theorem run_captured_invariant (x : Item) (s s' : RunState)
    (hpc : s.pc ≠ WorkerPC.started) (hcap : s.captured = some x)
    (hex : ∀ y, s.executed = some y → y = x)
    (h : Relation.ReflTransGen RunStep s s') :
    s'.captured = some x ∧ s'.pc ≠ WorkerPC.started ∧
      ∀ y, s'.executed = some y → y = x := by
  induction h with
  | refl => exact ⟨hcap, hpc, hex⟩
  | tail _ step ih =>
    obtain ⟨ihcap, ihpc, ihex⟩ := ih
    cases step with
    | select_change new_item => exact ⟨ihcap, ihpc, ihex⟩
    | read_selected h => exact absurd h ihpc
    | sleep_then_execute y h hc =>
      refine ⟨ihcap, by simp, ?_⟩
      intro z hz
      simp only [Option.some.injEq] at hz
      subst hz
      have : some y = some x := hc ▸ ihcap
      exact (Option.some.injEq _ _).mp this

/-- A concrete folder item. -/
def folderF : Item := { variant := Variant.folder, id := 2 }

/-- A concrete phrase item. -/
def phraseP : Item := { variant := Variant.phrase, id := 3 }

/-- The `can_copy` loop returns `false` exactly when some selected item is a
`model.Folder`. -/
theorem can_copy_eq_false_iff (items : List Item) :
    can_copy items = false ↔ ∃ it ∈ items, it.variant = Variant.folder := by
  induction items with
  | nil => simp [can_copy]
  | cons a rest ih =>
    by_cases h : a.variant = Variant.folder
    · simp [can_copy, h]
    · simp [can_copy, h, ih]

/-- Claim C1 (amended): for a selection of exactly one `Script` item,
`update_actions` enables the record and run actions unconditionally — the
enablement depends only on the selection, never on whether a recording is in
progress or a script worker thread is running (the method reads neither). -/
theorem update_actions_record_run_ignore_background (w : ConfigWindow) (it : Item)
    (changed : Bool) (h : it.variant = Variant.script) :
    (w.update_actions [it] changed).actions.record_script = true ∧
    (w.update_actions [it] changed).actions.run_script = true := by
  cases changed <;> simp [ConfigWindow.update_actions, h]

/-- Witness for C1's amended theorem at a concrete window and script item. -/
theorem update_actions_record_run_ignore_background_witness :
    scriptS.variant = Variant.script ∧
    (allEnabledWindow.update_actions [scriptS] false).actions.record_script = true ∧
    (allEnabledWindow.update_actions [scriptS] false).actions.run_script = true :=
  ⟨rfl, update_actions_record_run_ignore_background allEnabledWindow scriptS false rfl⟩

/-- Counterexample to claim C1 as stated: in a window where the record toggle
is checked (a recording is in progress) and a script worker thread is alive,
`update_actions` on a single-`Script` selection still enables both record and
run. -/
theorem update_actions_record_run_background_counterexample :
    allEnabledWindow.record_script_checked = true ∧
    allEnabledWindow.script_running = true ∧
    (allEnabledWindow.update_actions [scriptS] false).actions.record_script = true ∧
    (allEnabledWindow.update_actions [scriptS] false).actions.run_script = true := by
  decide

/-- Intermediate state of the C2 counterexample trace: the user has changed
the selection to `scriptT` before the worker thread ran its first statement. -/
def run_cx_mid : RunState :=
  { selected := scriptT, pc := WorkerPC.started, captured := none, executed := none }

/-- Next state of the C2 counterexample trace: the worker has now read the
selection and captured `scriptT`. -/
def run_cx_read : RunState :=
  { selected := scriptT, pc := WorkerPC.read_done, captured := some scriptT, executed := none }

/-- Final state of the C2 counterexample trace: after the settling delay the
worker executed `scriptT`. -/
def run_cx_final : RunState :=
  { selected := scriptT, pc := WorkerPC.finished, captured := some scriptT,
    executed := some scriptT }

/-- Claim C2 (amended): the selection is captured when the worker thread runs
its first statement, before the two-second settling delay — not at schedule
time.  From the state where the worker has read `sel` and is sitting in the
delay, every continuation — including any number of selection changes during
the delay — can only execute `sel`. -/
theorem run_script_capture_during_delay (sel : Item) (s' : RunState)
    (h : Relation.ReflTransGen RunStep (after_read sel) s') :
    ∀ y : Item, s'.executed = some y → y = sel := by
  have inv := run_captured_invariant sel (after_read sel) s'
    (by simp [after_read]) rfl (by simp [after_read]) h
  exact inv.2.2

/-- Witness for C2's amended theorem: a concrete trace in which the user
switches the selection to `scriptT` during the settling delay, yet the worker
executes the previously captured `scriptS`. -/
theorem run_script_capture_during_delay_witness :
    ({ selected := scriptT, pc := WorkerPC.finished, captured := some scriptS,
       executed := some scriptS : RunState }).executed = some scriptS ∧
    scriptS = scriptS := by
  have h1 : RunStep (after_read scriptS) { after_read scriptS with selected := scriptT } :=
    RunStep.select_change (after_read scriptS) scriptT
  have h2 : RunStep { after_read scriptS with selected := scriptT }
      { selected := scriptT, pc := WorkerPC.finished, captured := some scriptS,
        executed := some scriptS : RunState } :=
    RunStep.sleep_then_execute { after_read scriptS with selected := scriptT } scriptS rfl rfl
  have chain : Relation.ReflTransGen RunStep (after_read scriptS)
      { selected := scriptT, pc := WorkerPC.finished, captured := some scriptS,
        executed := some scriptS : RunState } :=
    Relation.ReflTransGen.head h1 (Relation.ReflTransGen.single h2)
  exact ⟨rfl, run_script_capture_during_delay scriptS _ chain scriptS rfl⟩

/-- Counterexample to claim C2 as stated: schedule a run with `scriptS`
selected, change the selection to `scriptT` before the worker reads it (hence
before the two-second delay has elapsed) — the run executes `scriptT`, not
`scriptS`.  The selection is not captured at schedule time. -/
theorem run_script_schedule_capture_counterexample :
    Relation.ReflTransGen RunStep (initial_run scriptS) run_cx_final ∧
    run_cx_final.executed = some scriptT ∧ scriptT ≠ scriptS := by
  refine ⟨?_, rfl, by decide⟩
  have h1 : RunStep (initial_run scriptS) run_cx_mid :=
    RunStep.select_change (initial_run scriptS) scriptT
  have h2 : RunStep run_cx_mid run_cx_read :=
    RunStep.read_selected run_cx_mid rfl
  have h3 : RunStep run_cx_read run_cx_final :=
    RunStep.sleep_then_execute run_cx_read scriptT rfl rfl
  exact Relation.ReflTransGen.head h1
    (Relation.ReflTransGen.head h2 (Relation.ReflTransGen.single h3))

/-- Claim C3 (amended): for every selection-changed event with a NON-EMPTY
selection and `changed = true`, the save, undo and redo actions are disabled
afterwards regardless of their prior state; with an empty selection
`update_actions` is a no-op and prior enablement survives. -/
theorem update_actions_changed_disables_save_undo_redo (w : ConfigWindow)
    (items : List Item) (h : items ≠ []) :
    (w.update_actions items true).actions.save = false ∧
    (w.update_actions items true).actions.undo = false ∧
    (w.update_actions items true).actions.redo = false := by
  match items with
  | [] => exact absurd rfl h
  | first :: rest => simp [ConfigWindow.update_actions]

/-- Witness for C3's amended theorem at a concrete window whose save, undo
and redo actions were all enabled before the event. -/
theorem update_actions_changed_disables_save_undo_redo_witness :
    ([scriptS] ≠ ([] : List Item)) ∧
    (allEnabledWindow.update_actions [scriptS] true).actions.save = false ∧
    (allEnabledWindow.update_actions [scriptS] true).actions.undo = false ∧
    (allEnabledWindow.update_actions [scriptS] true).actions.redo = false :=
  ⟨by decide,
   update_actions_changed_disables_save_undo_redo allEnabledWindow [scriptS] (by decide)⟩

/-- Counterexample to claim C3 as stated: with an empty selection and
`changed = true`, a previously enabled save/undo/redo triple stays enabled —
the whole body of `update_actions` is skipped when `len(items) == 0`. -/
theorem update_actions_changed_empty_counterexample :
    (allEnabledWindow.update_actions [] true).actions.save = true ∧
    (allEnabledWindow.update_actions [] true).actions.undo = true ∧
    (allEnabledWindow.update_actions [] true).actions.redo = true := by
  decide

/-- Claim C4 (amended): a selection-changed event carrying an empty selection
leaves the window untouched: `update_actions` returns the state unchanged, so
no action is disabled and none is enabled. -/
theorem update_actions_empty_selection_noop (w : ConfigWindow) (changed : Bool) :
    w.update_actions [] changed = w := rfl

/-- Counterexample to claim C4 as stated: after an empty-selection event the
record action of a fully-enabled window is still enabled (the claim says it is
disabled), and the top-level new-folder action of a fully-disabled window is
still disabled (the claim says it is left enabled). -/
theorem update_actions_empty_selection_counterexample :
    (allEnabledWindow.update_actions [] true).actions.record_script = true ∧
    (allDisabledWindow.update_actions [] true).actions.new_top_folder = false := by
  decide

/-- Claim C6: for every non-empty selection, the copy enablement computed by
`update_actions` is false exactly when some selected item is a `Folder`, and
the clone action always receives the same flag as the copy action. -/
theorem update_actions_copy_clone_no_folder (w : ConfigWindow) (items : List Item)
    (changed : Bool) (h : items ≠ []) :
    ((w.update_actions items changed).actions.copy_item = false ↔
      ∃ it ∈ items, it.variant = Variant.folder) ∧
    (w.update_actions items changed).actions.clone_item =
      (w.update_actions items changed).actions.copy_item := by
  match items with
  | [] => exact absurd rfl h
  | first :: rest =>
    constructor
    · cases changed <;>
        simpa [ConfigWindow.update_actions] using can_copy_eq_false_iff (first :: rest)
    · cases changed <;> simp [ConfigWindow.update_actions]

/-- Witness for C6 at a concrete mixed selection `[Folder, Phrase]`: copy is
disabled and clone mirrors copy. -/
theorem update_actions_copy_clone_no_folder_witness :
    ([folderF, phraseP] ≠ ([] : List Item)) ∧
    ((allEnabledWindow.update_actions [folderF, phraseP] false).actions.copy_item = false ↔
      ∃ it ∈ [folderF, phraseP], it.variant = Variant.folder) ∧
    (allEnabledWindow.update_actions [folderF, phraseP] false).actions.clone_item =
      (allEnabledWindow.update_actions [folderF, phraseP] false).actions.copy_item :=
  ⟨by decide,
   update_actions_copy_clone_no_folder allEnabledWindow [folderF, phraseP] false (by decide)⟩

/-- Claim C7: the `can_create` flag is true exactly for a selection consisting
of a single `Folder` item (so false for an empty selection, for two or more
items, and for a single non-`Folder` item), and for every non-empty selection
it is the flag `update_actions` passes to the new-sub-folder, new-phrase and
new-script actions. -/
theorem can_create_child_characterization :
    (∀ items : List Item, can_create items = true ↔
      ∃ a, items = [a] ∧ a.variant = Variant.folder) ∧
    (∀ (w : ConfigWindow) (items : List Item) (changed : Bool), items ≠ [] →
      (w.update_actions items changed).actions.new_sub_folder = can_create items ∧
      (w.update_actions items changed).actions.new_phrase = can_create items ∧
      (w.update_actions items changed).actions.new_script = can_create items) := by
  constructor
  · intro items
    match items with
    | [] => simp [can_create]
    | [a] => simp [can_create]
    | a :: b :: rest => simp [can_create]
  · intro w items changed h
    match items with
    | [] => exact absurd rfl h
    | first :: rest => cases changed <;> simp [ConfigWindow.update_actions]

/-- Witness for C7 at a concrete single-`Folder` selection. -/
theorem can_create_child_characterization_witness :
    can_create [folderF] = true ∧
    (allDisabledWindow.update_actions [folderF] false).actions.new_sub_folder =
      can_create [folderF] :=
  ⟨(can_create_child_characterization.1 [folderF]).mpr ⟨folderF, rfl, rfl⟩,
   (can_create_child_characterization.2 allDisabledWindow [folderF] false (by decide)).1⟩

/-- Claim C8: for every non-empty selection, the paste action receives
exactly `can_create && clipboard_count > 0` — enabled iff a single folder is
selected and `central_widget.cutCopiedItems` is non-empty. -/
theorem update_actions_paste_condition (w : ConfigWindow) (items : List Item)
    (changed : Bool) (h : items ≠ []) :
    (w.update_actions items changed).actions.paste_item =
      (can_create items && decide (0 < w.cut_copied_count)) := by
  match items with
  | [] => exact absurd rfl h
  | first :: rest => cases changed <;> simp [ConfigWindow.update_actions]

/-- Witness for C8 at a concrete single-`Folder` selection with one clipboard
item. -/
theorem update_actions_paste_condition_witness :
    (allEnabledWindow.update_actions [folderF] false).actions.paste_item =
      (can_create [folderF] && decide (0 < allEnabledWindow.cut_copied_count)) :=
  update_actions_paste_condition allEnabledWindow [folderF] false (by decide)

/-- Claim C9: `cancel_record` is idempotent: after one call the record toggle
(the recording-active indicator) is unchecked; a second call is a no-op (it
returns the state unchanged, in particular without a second `recorder.stop()`),
and the toggle is still unchecked after it. -/
theorem cancel_record_idempotent (w : ConfigWindow) :
    w.cancel_record.record_script_checked = false ∧
    w.cancel_record.cancel_record = w.cancel_record ∧
    w.cancel_record.cancel_record.record_script_checked = false := by
  by_cases h : w.record_script_checked <;>
    simp [ConfigWindow.cancel_record, h]

/-- Claim C5: `queryClose` on a dirty window whose save prompt is
accepted/handled returns `False` (not closed); on a clean window it returns
`True` and its settings log contains exactly one write to each of the two
layout keys, in order. -/
theorem queryClose_dirty_prompt_and_clean (prompt_to_save : Bool) (split : Int)
    (cw : Nat → Int) :
    (prompt_to_save = true → (queryClose true prompt_to_save split cw).closed = false) ∧
    ((queryClose false prompt_to_save split cw).closed = true ∧
     (queryClose false prompt_to_save split cw).writes.map Prod.fst =
       [SettingKey.hpane_position, SettingKey.column_widths]) := by
  cases prompt_to_save <;> simp [queryClose]

/-- Witness for C5 at concrete collaborator values. -/
theorem queryClose_dirty_prompt_and_clean_witness :
    (queryClose true true 0 (fun _ => 0)).closed = false ∧
    (queryClose false true 0 (fun _ => 0)).closed = true :=
  ⟨(queryClose_dirty_prompt_and_clean true 0 (fun _ => 0)).1 rfl,
   (queryClose_dirty_prompt_and_clean true 0 (fun _ => 0)).2.1⟩

/-- Claim C10: `queryClose` performs the two layout-preference writes
unconditionally, before the dirty check — its settings log is the same
two-entry list for every combination of dirty flag and prompt answer, in
particular also when the close is aborted (`closed = false`). -/
theorem queryClose_writes_before_dirty_check (dirty prompt_to_save : Bool)
    (split : Int) (cw : Nat → Int) :
    (queryClose dirty prompt_to_save split cw).writes =
      [(SettingKey.hpane_position, SettingValue.num (split + 4)),
       (SettingKey.column_widths, SettingValue.nums ((List.range 3).map cw))] ∧
    (queryClose true true split cw).closed = false := by
  cases dirty <;> cases prompt_to_save <;> simp [queryClose]
